import Mathlib

/-!
Verification of the retry/backoff engine and bulk-response classifier of
godber/elasticsearch_api (src/index.js).

The JavaScript module is embedded shallowly: promise-driven wrappers become
pure step functions from the client's outcome to an explicit outcome type
(resolve / reject / reschedule / no action), the mutable retry-timer record
becomes explicit state passing, and JavaScript values that can be absent
(undefined) become Option values.
-/

/-- HTTP conflict status treated as a document-exists race (src/index.js line 7). -/
def DOCUMENT_EXISTS : Nat := 409

/-- Result of calling err.toJSON(): the serialized error object.  Only the
fields read by parseError are modeled: the msg field (absent or a string) and
the JSON.stringify rendering of the whole serialized object, which appears in
the tagged unknown-format message. -/
structure JsonForm where
  msg : Option String
  stringified : String
deriving DecidableEq

/-- A non-null JavaScript error value, restricted to the fields the module
reads.  toJSON models presence of an err.toJSON method; stack and response
model the err.stack and err.response fields (strings or absent); bodyErrorType
models the lodash path lookup get(err, body.error.type); rootCauseTypes lists
the type field of each entry of err.body.error.root_cause (an absent or empty
root_cause list both make every-quantification vacuously true, matching
lodash every). -/
structure JsObj where
  toJSON : Option JsonForm
  stack : Option String
  response : Option String
  bodyErrorType : Option String
  rootCauseTypes : List String
deriving DecidableEq

/-- A JavaScript value passed as an error: either null/undefined or an object. -/
inductive JsVal where
  | nullish
  | obj (o : JsObj)
deriving DecidableEq

/-- The value parseError returns: either a string, or the raw error value
returned as-is by the final fallback. -/
inductive ParseResult where
  | str (s : String)
  | raw (o : JsObj)
deriving DecidableEq

/-- JavaScript truthiness of a possibly-absent string field: undefined and
the empty string are falsy, every other string is truthy. -/
def truthyStr : Option String → Bool
  | none => false
  | some s => s != ""

/-- parseError on a non-null error value (src/index.js lines 23-37): if the
error has a toJSON method, serialize and return the msg field when truthy,
otherwise a tagged unknown-format string; else return a truthy stack field;
else return a truthy response field; else return the error value itself. -/
def parseErrorObj (err : JsObj) : ParseResult :=
  match err.toJSON with
  | some j =>
      if truthyStr j.msg then ParseResult.str (j.msg.getD "")
      else ParseResult.str ("Unknown ES Error Format " ++ j.stringified)
  | none =>
      if truthyStr err.stack then ParseResult.str (err.stack.getD "")
      else if truthyStr err.response then ParseResult.str (err.response.getD "")
      else ParseResult.raw err

/-- parseError as called on an arbitrary JavaScript value.  The very first
statement reads err.toJSON, so a null or undefined argument makes the function
itself throw a TypeError (modeled as Except.error) before producing anything. -/
def parseError : JsVal → Except Unit ParseResult
  | JsVal.nullish => Except.error ()
  | JsVal.obj o => Except.ok (parseErrorObj o)

/-- Modelled from the spec's words (section 4.1 priority order), to be compared
with parseErrorObj: structured serialization's message field if present, else a
tagged unknown-structured-error string embedding the serialized form, else the
stack trace verbatim, else the embedded response, else the raw error value.
Presence of a string field follows the JavaScript idiom the spec describes,
under which an empty string and an absent field are indistinguishable. -/
def specNormalize (err : JsObj) : ParseResult :=
  match err.toJSON with
  | some form =>
      match form.msg with
      | some m =>
          if m = "" then ParseResult.str ("Unknown ES Error Format " ++ form.stringified)
          else ParseResult.str m
      | none => ParseResult.str ("Unknown ES Error Format " ++ form.stringified)
  | none =>
      match err.stack with
      | some st =>
          if st = "" then
            match err.response with
            | some resp => if resp = "" then ParseResult.raw err else ParseResult.str resp
            | none => ParseResult.raw err
          else ParseResult.str st
      | none =>
          match err.response with
          | some resp => if resp = "" then ParseResult.raw err else ParseResult.str resp
          | none => ParseResult.raw err

/-- The error object of one bulk item result (fields type and reason). -/
structure ItemError where
  type : String
  reason : String
deriving DecidableEq

/-- One element of a bulk response's items sequence, after the source's
unwrapping of the single action key (values(items[i])[0]): the status code and
the optional error object. -/
structure BulkItem where
  status : Nat
  error : Option ItemError
deriving DecidableEq

/-- A bulk response: the errors flag and the per-item results. -/
structure BulkResults where
  errors : Bool
  items : List BulkItem
deriving DecidableEq

/-- The object _filterResponse returns: the retry payload (entries read from
the request body by index, so an out-of-range read yields undefined, modeled
as none), the error flag, and the reason field, present only on the fatal
return. -/
structure FilterResult (α : Type) where
  data : List (Option α)
  error : Bool
  reason : Option String
deriving DecidableEq

/-- The loop of _filterResponse (src/index.js lines 45-71), with the loop
index i and the retry accumulator made explicit.  Per item: no error means
skip; status 409 means skip; backpressure type queues the request pair at
positions i*2 and i*2+1 (with the source's special case for i = 0); any type
other than document-already-exists and document-missing is fatal and returns
immediately; the two remaining types are skipped. -/
def filterLoop {α : Type} (data : List α) :
    List BulkItem → Nat → List (Option α) → FilterResult α
  | [], _, retry => { data := retry, error := false, reason := none }
  | item :: rest, i, retry =>
    match item.error with
    | none => filterLoop data rest (i + 1) retry
    | some e =>
      if item.status = DOCUMENT_EXISTS then
        filterLoop data rest (i + 1) retry
      else if e.type = "es_rejected_execution_exception" then
        if i = 0 then
          filterLoop data rest (i + 1) (retry ++ [data.get? 0, data.get? 1])
        else
          filterLoop data rest (i + 1) (retry ++ [data.get? (i * 2), data.get? (i * 2 + 1)])
      else if e.type ≠ "document_already_exists_exception" ∧ e.type ≠ "document_missing_exception" then
        { data := [], error := true, reason := some (e.type ++ "--" ++ e.reason) }
      else
        filterLoop data rest (i + 1) retry

/-- _filterResponse (src/index.js lines 39-78): run the loop from index 0 with
an empty retry accumulator.  The logger argument has no effect on the value
and is omitted. -/
def _filterResponse {α : Type} (data : List α) (results : BulkResults) : FilterResult α :=
  filterLoop data results.items 0 []

/-- An item the classifier treats as fatal: it carries an error, its status is
not 409, and its error type is none of backpressure, document-already-exists,
document-missing. -/
def isFatalItem (it : BulkItem) : Bool :=
  match it.error with
  | none => false
  | some e =>
      (it.status != DOCUMENT_EXISTS) && (e.type != "es_rejected_execution_exception") &&
        (e.type != "document_already_exists_exception") && (e.type != "document_missing_exception")

/-- An item the classifier queues for retry: it carries an error, its status
is not 409, and its error type is the backpressure rejection. -/
def isRetryableItem (it : BulkItem) : Bool :=
  match it.error with
  | none => false
  | some e => (it.status != DOCUMENT_EXISTS) && (e.type == "es_rejected_execution_exception")

/-- An error-carrying item the classifier ignores: status 409, or an error
type of document-already-exists or document-missing. -/
def isIgnorableItem (it : BulkItem) : Bool :=
  (it.status == DOCUMENT_EXISTS) ||
    (match it.error with
     | none => false
     | some e =>
         (e.type == "document_already_exists_exception") || (e.type == "document_missing_exception"))

/-- The error object of the first fatal item of a result sequence, if any. -/
def firstFatal : List BulkItem → Option ItemError
  | [] => none
  | it :: rest => if isFatalItem it then it.error else firstFatal rest

/-- Follows the spec's words (sections 4.3 and 8), to be compared with the
retry payload the classifier computes: for each result index i whose item is a
backpressure retry, exactly the request pair at positions 2i and 2i+1, and
nothing from any other item. -/
def specRetryPairs {α : Type} (data : List α) : List BulkItem → Nat → List (Option α)
  | [], _ => []
  | it :: rest, i =>
      (if isRetryableItem it then [data.get? (2 * i), data.get? (2 * i + 1)] else []) ++
        specRetryPairs data rest (i + 1)

/-- Outcome of one bulkSend attempt: resolve with the raw bulk result, reject
with a reason string, or schedule a retry of the narrowed request body. -/
inductive BulkOutcome (α : Type) where
  | resolve (raw : BulkResults)
  | reject (reason : String)
  | retryNarrowed (narrowed : List (Option α))
deriving DecidableEq

/-- The fulfilled branch of bulkSend's sendData (src/index.js lines 393-414):
with the errors flag set, classify; a fatal classification rejects with its
reason (the reason field is always present there, read via getD), an empty
retry payload resolves with the raw result, and otherwise the narrowed body is
rescheduled.  Without the errors flag the raw result resolves immediately and
the classifier is never consulted. -/
def bulkSendOnSuccess {α : Type} (data : List α) (results : BulkResults) : BulkOutcome α :=
  if results.errors then
    let response := _filterResponse data results
    if response.error then
      BulkOutcome.reject (response.reason.getD "")
    else if response.data.length = 0 then
      BulkOutcome.resolve results
    else
      BulkOutcome.retryNarrowed response.data
  else
    BulkOutcome.resolve results

/-- JavaScript template-literal coercion of a parseError result: a string
interpolates as itself, an object as the default object rendering. -/
def jsTemplateStr : ParseResult → String
  | ParseResult.str s => s
  | ParseResult.raw _ => "[object Object]"

/-- The rejected branch of bulkSend's sendData (src/index.js lines 415-419):
normalize the transport error and reject with the prefixed message.  No retry
is ever scheduled from this branch. -/
def bulkSendOnError (α : Type) (err : JsObj) : BulkOutcome α :=
  BulkOutcome.reject ("bulk sender error: " ++ jsTemplateStr (parseErrorObj err))

/-- The _shards object of a search or count response: the failed count and the
failures list, each failure modeled by its reason.type field, the only field
the module reads. -/
structure ShardInfo where
  failed : Nat
  failures : List String
deriving DecidableEq

/-- A successful search or count response: shard info, hits.total, and the
_source field of each element of hits.hits. -/
structure SearchData (α : Type) where
  shards : ShardInfo
  hitsTotal : Nat
  hitsSources : List α
deriving DecidableEq

/-- lodash uniq: distinct elements in order of first occurrence. -/
def uniqFirst (l : List String) : List String :=
  l.foldl (fun acc x => if acc.contains x then acc else acc ++ [x]) []

/-- Outcome of one attempt of a search or count wrapper on a fulfilled client
call: resolve with a value, reject with a reason string, or schedule a retry
of the identical query (the promise stays pending). -/
inductive SearchStep (β : Type) where
  | resolve (v : β)
  | reject (reason : String)
  | retrySame
deriving DecidableEq

/-- The fulfilled branch of count's searchES (src/index.js lines 87-105): with
failed shards, collect the distinct failure reason types; more than one
distinct type, or a first type other than the backpressure rejection, rejects
with the types joined by a pipe separator; otherwise the same query is
rescheduled.  With no failed shards, hits.total resolves. -/
def countOnData {α : Type} (d : SearchData α) : SearchStep Nat :=
  if 0 < d.shards.failed then
    let reasons := uniqFirst d.shards.failures
    if 1 < reasons.length ∨ reasons.head? ≠ some "es_rejected_execution_exception" then
      SearchStep.reject (String.intercalate " | " reasons)
    else
      SearchStep.retrySame
  else
    SearchStep.resolve d.hitsTotal

/-- The fulfilled branch of search's searchES (src/index.js lines 136-161):
identical shard-failure handling; on success the raw response resolves under
the full-response configuration, otherwise the extracted source documents. -/
def searchOnData {α : Type} (fullResponse : Bool) (d : SearchData α) :
    SearchStep (SearchData α ⊕ List α) :=
  if 0 < d.shards.failed then
    let reasons := uniqFirst d.shards.failures
    if 1 < reasons.length ∨ reasons.head? ≠ some "es_rejected_execution_exception" then
      SearchStep.reject (String.intercalate " | " reasons)
    else
      SearchStep.retrySame
  else
    if fullResponse then SearchStep.resolve (Sum.inl d)
    else SearchStep.resolve (Sum.inr d.hitsSources)

/-- What a rejection handler does with the promise it guards: settle it by
rejecting with a reason, or return without settling or scheduling anything,
leaving the promise pending forever. -/
inductive CatchStep where
  | reject (reason : ParseResult)
  | noSettle
deriving DecidableEq

/-- The rejected branch shared verbatim by count and search (src/index.js
lines 106-123 and 162-178): a reduce-search-phase error whose root causes are
all backpressure rejections is normalized and rejected (the source comments
this as scaffolding for retries); a reduce-search-phase error with any other
root cause falls through the missing else branch, so the handler returns
without settling; every other error is normalized and rejected. -/
def transportCatch (err : JsObj) : CatchStep :=
  if err.bodyErrorType = some "reduce_search_phase_exception" then
    if err.rootCauseTypes.all (fun t => t == "es_rejected_execution_exception") then
      CatchStep.reject (parseErrorObj err)
    else
      CatchStep.noSettle
  else
    CatchStep.reject (parseErrorObj err)

/-- The mutable timer record of the retry scheduler (fields start and limit,
the backoff floor and ceiling in milliseconds). -/
structure RetryTimer where
  start : Nat
  limit : Nat
deriving DecidableEq

/-- The fresh timer every top-level operation creates (src/index.js lines 81,
131, 388). -/
def initialRetryTimer : RetryTimer := { start := 5000, limit := 10000 }

/-- The in-place widening retry performs after drawing a delay (src/index.js
lines 293-298): the ceiling grows by 10000 while below 60000, the floor by
5000 while below 30000.  The two updates are independent, so they are applied
componentwise. -/
def retryWiden (t : RetryTimer) : RetryTimer :=
  { start := if t.start < 30000 then t.start + 5000 else t.start,
    limit := if t.limit < 60000 then t.limit + 10000 else t.limit }

/-- The jittered delay retry draws before widening (src/index.js line 291):
the floor of random times the range width plus the floor, with the random
draw r in the unit interval made an explicit parameter. -/
def retryDelay (t : RetryTimer) (r : ℚ) : ℤ :=
  Int.floor (r * ((t.limit : ℚ) - (t.start : ℚ)) + (t.start : ℚ))

/-- The timer state after k uses of the scheduler on one retry chain. -/
def timerAfter : Nat → RetryTimer
  | 0 => initialRetryTimer
  | k + 1 => retryWiden (timerAfter k)

/-- What the handler returned by _errorHandler does: reschedule the same
request, or reject with the normalized reason. -/
inductive HandlerStep where
  | reschedule
  | reject (reason : ParseResult)
deriving DecidableEq

/-- The rejection handler _errorHandler builds (src/index.js lines 307-316): a
backpressure error type in the body reschedules the same request through
retry; anything else is normalized and rejected. -/
def errorHandler (err : JsObj) : HandlerStep :=
  if err.bodyErrorType = some "es_rejected_execution_exception" then
    HandlerStep.reschedule
  else
    HandlerStep.reject (parseErrorObj err)

/-- The timer _errorHandler creates when the handler is built (src/index.js
line 305), fresh for each wrapped call. -/
def errorHandlerInitialTimer : RetryTimer := { start := 5000, limit := 10000 }

/-- Outcome of one attempt of a point-operation wrapper: resolve with the
operation's success value, reschedule the identical request (promise still
pending), or reject with the normalized reason. -/
inductive PointOutcome (β : Type) where
  | resolve (v : β)
  | reschedule
  | reject (reason : ParseResult)
deriving DecidableEq

/-- One attempt of a point-operation wrapper (get, index, indexWithId, create,
update, remove, index_exists, index_create, index_refresh, index_recovery,
src/index.js lines 186-288 and 488-554): a fulfilled client call resolves with
the operation's success projection of the result; a rejected one goes through
the handler built by _errorHandler. -/
def pointOpStep {α β : Type} (onSuccess : α → β) (result : Except JsObj α) : PointOutcome β :=
  match result with
  | Except.ok v => PointOutcome.resolve (onSuccess v)
  | Except.error err =>
    match errorHandler err with
    | HandlerStep.reschedule => PointOutcome.reschedule
    | HandlerStep.reject r => PointOutcome.reject r

/-- A query descriptor as the caller hands it over: the size field the module
writes, and the rest of the object, untouched, abstracted as one value. -/
structure QueryDesc (α : Type) where
  size : Option Nat
  rest : α
deriving DecidableEq

/-- The assignment query.size = 0 that count performs on the caller's object
before any client call (src/index.js line 82). -/
def countQueryMutation {α : Type} (q : QueryDesc α) : QueryDesc α :=
  { q with size := some 0 }

/-- The query object count's attempt number n issues: every attempt of the
chain reads the same mutated object. -/
def countIssuedQuery {α : Type} (q : QueryDesc α) (_attempt : Nat) : QueryDesc α :=
  countQueryMutation q

/-- The query object search's attempt number n issues: search performs no
mutation, so every attempt issues the caller's object unchanged. -/
def searchIssuedQuery {α : Type} (q : QueryDesc α) (_attempt : Nat) : QueryDesc α :=
  q

theorem filterLoop_cons_not_fatal {α : Type} (data : List α) (it : BulkItem)
    (rest : List BulkItem) (i : Nat) (acc : List (Option α))
    (h : isFatalItem it = false) :
    filterLoop data (it :: rest) i acc =
      filterLoop data rest (i + 1)
        (acc ++ (if isRetryableItem it then [data.get? (2 * i), data.get? (2 * i + 1)] else [])) := by
  cases he : it.error with
  | none =>
    have hr : isRetryableItem it = false := by simp [isRetryableItem, he]
    simp [filterLoop, he, hr]
  | some e =>
    by_cases h409 : it.status = DOCUMENT_EXISTS
    · have hr : isRetryableItem it = false := by simp [isRetryableItem, he, h409]
      simp [filterLoop, he, h409, hr]
    · by_cases hes : e.type = "es_rejected_execution_exception"
      · have hr : isRetryableItem it = true := by simp [isRetryableItem, he, hes, h409]
        rcases Nat.eq_zero_or_pos i with hi | hi
        · subst hi
          simp [filterLoop, he, h409, hes, hr]
        · have hi0 : i ≠ 0 := Nat.pos_iff_ne_zero.mp hi
          simp [filterLoop, he, h409, hes, hr, hi0, Nat.mul_comm]
      · have hr : isRetryableItem it = false := by simp [isRetryableItem, he, hes]
        by_cases hA : e.type = "document_already_exists_exception"
        · simp [filterLoop, he, h409, hes, hA, hr]
        · by_cases hB : e.type = "document_missing_exception"
          · simp [filterLoop, he, h409, hes, hA, hB, hr]
          · exfalso
            simp [isFatalItem, he, h409, hes, hA, hB] at h

theorem filterLoop_cons_fatal {α : Type} (data : List α) (it : BulkItem)
    (rest : List BulkItem) (i : Nat) (acc : List (Option α)) (e : ItemError)
    (he : it.error = some e) (h : isFatalItem it = true) :
    filterLoop data (it :: rest) i acc =
      { data := [], error := true, reason := some (e.type ++ "--" ++ e.reason) } := by
  have h' := h
  simp only [isFatalItem, he, Bool.and_eq_true, bne_iff_ne, ne_eq] at h'
  obtain ⟨⟨⟨h409, hes⟩, hA⟩, hB⟩ := h'
  simp [filterLoop, he, h409, hes, hA, hB]

theorem isFatalItem_error_isSome {it : BulkItem} (h : isFatalItem it = true) :
    ∃ e, it.error = some e := by
  cases he : it.error with
  | none => simp [isFatalItem, he] at h
  | some e => exact ⟨e, rfl⟩

theorem firstFatal_none_iff (items : List BulkItem) :
    firstFatal items = none ↔ ∀ it ∈ items, isFatalItem it = false := by
  induction items with
  | nil => simp [firstFatal]
  | cons it rest ih =>
    by_cases hf : isFatalItem it = true
    · obtain ⟨e, he⟩ := isFatalItem_error_isSome hf
      constructor
      · intro h
        rw [firstFatal, if_pos hf, he] at h
        exact Option.noConfusion h
      · intro h
        exact absurd (h it (List.mem_cons_self it rest)) (by simp [hf])
    · have hf' : isFatalItem it = false := by simpa using hf
      simp [firstFatal, hf', ih]

theorem firstFatal_cases (items : List BulkItem) :
    (∃ e, firstFatal items = some e) ∨ ∀ it ∈ items, isFatalItem it = false := by
  cases h : firstFatal items with
  | none => exact Or.inr ((firstFatal_none_iff items).mp h)
  | some e => exact Or.inl ⟨e, rfl⟩

theorem filterLoop_no_fatal {α : Type} (data : List α) :
    ∀ (items : List BulkItem) (i : Nat) (acc : List (Option α)),
      (∀ it ∈ items, isFatalItem it = false) →
      filterLoop data items i acc =
        { data := acc ++ specRetryPairs data items i, error := false, reason := none } := by
  intro items
  induction items with
  | nil => intro i acc _; simp [filterLoop, specRetryPairs]
  | cons it rest ih =>
    intro i acc h
    rw [filterLoop_cons_not_fatal data it rest i acc (h it (List.mem_cons_self it rest))]
    rw [ih (i + 1) _ (fun it' hm => h it' (List.mem_cons_of_mem it hm))]
    simp [specRetryPairs, List.append_assoc]

theorem filterLoop_fatal {α : Type} (data : List α) :
    ∀ (items : List BulkItem) (i : Nat) (acc : List (Option α)) (e : ItemError),
      firstFatal items = some e →
      filterLoop data items i acc =
        { data := [], error := true, reason := some (e.type ++ "--" ++ e.reason) } := by
  intro items
  induction items with
  | nil => intro i acc e h; exact Option.noConfusion h
  | cons it rest ih =>
    intro i acc e h
    by_cases hf : isFatalItem it = true
    · rw [firstFatal, if_pos hf] at h
      exact filterLoop_cons_fatal data it rest i acc e h hf
    · have hf' : isFatalItem it = false := by simpa using hf
      rw [firstFatal, if_neg (by simp [hf'])] at h
      rw [filterLoop_cons_not_fatal data it rest i acc hf']
      exact ih (i + 1) _ e h

theorem specRetryPairs_eq_nil {α : Type} (data : List α) :
    ∀ (items : List BulkItem) (i : Nat),
      (∀ it ∈ items, isRetryableItem it = false) →
      specRetryPairs data items i = [] := by
  intro items
  induction items with
  | nil => intro i _; rfl
  | cons it rest ih =>
    intro i h
    simp [specRetryPairs, h it (List.mem_cons_self it rest),
      ih (i + 1) (fun it' hm => h it' (List.mem_cons_of_mem it hm))]

theorem ignorable_not_fatal {it : BulkItem} (h : isIgnorableItem it = true) :
    isFatalItem it = false := by
  cases he : it.error with
  | none => simp [isFatalItem, he]
  | some e =>
    simp only [isIgnorableItem, he, Bool.or_eq_true, beq_iff_eq] at h
    simp only [isFatalItem, he]
    rcases h with h409 | hA | hB
    · simp [h409]
    · simp [hA]
    · simp [hB]

theorem ignorable_not_retryable {it : BulkItem} (h : isIgnorableItem it = true) :
    isRetryableItem it = false := by
  cases he : it.error with
  | none => simp [isRetryableItem, he]
  | some e =>
    simp only [isIgnorableItem, he, Bool.or_eq_true, beq_iff_eq] at h
    simp only [isRetryableItem, he]
    rcases h with h409 | hA | hB
    · simp [h409]
    · simp [hA]
    · simp [hB]

theorem reject_cond_iff (l : List String) :
    (¬(1 < l.length ∨ l.head? ≠ some "es_rejected_execution_exception")) ↔
      l = ["es_rejected_execution_exception"] := by
  match l with
  | [] => simp
  | [a] => simp
  | a :: b :: t => simp

/-- Claim C1: every transport-level error received by the search or count
wrapper is claimed to be normalized and rejected, the promise never staying
unsettled.  The code violates this: the catch handler's reduce-search-phase
branch has no else arm, so an error of that type whose root causes are not
all backpressure rejections makes the handler return without rejecting,
retrying, or resolving, and the promise stays pending forever.  This theorem
evaluates the embedded handler at that failing input and, for contrast, at
the two shapes the claim describes correctly. -/
theorem count_search_transport_error_settlement :
    transportCatch ⟨none, none, none, some "reduce_search_phase_exception",
        ["some_other_exception"]⟩ = CatchStep.noSettle ∧
    transportCatch ⟨none, none, none, some "reduce_search_phase_exception",
        ["es_rejected_execution_exception", "es_rejected_execution_exception"]⟩ =
      CatchStep.reject (parseErrorObj ⟨none, none, none, some "reduce_search_phase_exception",
        ["es_rejected_execution_exception", "es_rejected_execution_exception"]⟩) ∧
    transportCatch ⟨none, none, none, none, []⟩ =
      CatchStep.reject (parseErrorObj ⟨none, none, none, none, []⟩) := by
  refine ⟨?_, ?_, ?_⟩ <;> decide

/-- Claim C2: bulk classification is first-fatal-wins.  If some item's error
type is outside the backpressure, document-already-exists and
document-missing types and its status is not 409, the classifier returns the
fatal flag with the first such item's type--reason string and an empty retry
payload, and bulkSend rejects with that reason. -/
theorem bulk_classifier_first_fatal_wins {α : Type} (data : List α) (res : BulkResults)
    (e : ItemError) (h : firstFatal res.items = some e) :
    _filterResponse data res =
      { data := [], error := true, reason := some (e.type ++ "--" ++ e.reason) } ∧
    (res.errors = true →
      bulkSendOnSuccess data res = BulkOutcome.reject (e.type ++ "--" ++ e.reason)) := by
  have hfr : filterLoop data res.items 0 [] =
      { data := [], error := true, reason := some (e.type ++ "--" ++ e.reason) } :=
    filterLoop_fatal data res.items 0 [] e h
  refine ⟨hfr, fun herr => ?_⟩
  simp [bulkSendOnSuccess, herr, _filterResponse, hfr]

/-- Concrete run of the first-fatal-wins theorem on the spec's
ok-fatal-retryable item sequence. -/
theorem bulk_classifier_first_fatal_wins_witness :
    bulkSendOnSuccess [10, 11, 20, 21, 30, 31]
        ⟨true, [⟨201, none⟩,
                ⟨400, some ⟨"mapper_parsing_exception", "bad doc"⟩⟩,
                ⟨429, some ⟨"es_rejected_execution_exception", "queue full"⟩⟩]⟩ =
      BulkOutcome.reject ("mapper_parsing_exception" ++ "--" ++ "bad doc") :=
  (bulk_classifier_first_fatal_wins [10, 11, 20, 21, 30, 31]
    ⟨true, [⟨201, none⟩,
            ⟨400, some ⟨"mapper_parsing_exception", "bad doc"⟩⟩,
            ⟨429, some ⟨"es_rejected_execution_exception", "queue full"⟩⟩]⟩
    ⟨"mapper_parsing_exception", "bad doc"⟩ (by decide)).2 rfl

/-- Claim C3: whenever the classifier produces a retry payload (no fatal
item), that payload consists of exactly the request pair at positions 2i and
2i+1 for each backpressure item at result index i, and of nothing originating
from successes or ignorable errors; specRetryPairs states this shape in the
spec's words. -/
theorem bulk_classifier_retry_pairs {α : Type} (data : List α) (res : BulkResults)
    (h : (_filterResponse data res).error = false) :
    (_filterResponse data res).data = specRetryPairs data res.items 0 := by
  rcases firstFatal_cases res.items with ⟨e, he⟩ | hnf
  · have hfr := filterLoop_fatal data res.items 0 [] e he
    rw [_filterResponse, hfr] at h
    exact absurd h (by simp)
  · rw [_filterResponse, filterLoop_no_fatal data res.items 0 [] hnf]
    simp

/-- Concrete run of the retry-pair theorem with a backpressure item at the
first position followed by a success. -/
theorem bulk_classifier_retry_pairs_witness :
    (_filterResponse [1, 2, 3, 4]
        ⟨true, [⟨429, some ⟨"es_rejected_execution_exception", "rejected"⟩⟩, ⟨201, none⟩]⟩).data =
      specRetryPairs [1, 2, 3, 4]
        [⟨429, some ⟨"es_rejected_execution_exception", "rejected"⟩⟩, ⟨201, none⟩] 0 :=
  bulk_classifier_retry_pairs [1, 2, 3, 4]
    ⟨true, [⟨429, some ⟨"es_rejected_execution_exception", "rejected"⟩⟩, ⟨201, none⟩]⟩
    (by decide)

/-- Claim C6: an error item with status 409 or with a document-already-exists
or document-missing error type is excluded from both the retry payload and
the fatal path; when every error item is ignorable the classifier returns an
empty non-fatal result and bulkSend resolves with the raw bulk result. -/
theorem bulk_classifier_ignorable {α : Type} (data : List α) (res : BulkResults)
    (hall : ∀ it ∈ res.items, it.error.isSome = true → isIgnorableItem it = true)
    (herr : res.errors = true) :
    _filterResponse data res = { data := [], error := false, reason := none } ∧
    bulkSendOnSuccess data res = BulkOutcome.resolve res := by
  have hnf : ∀ it ∈ res.items, isFatalItem it = false := by
    intro it hm
    cases he : it.error with
    | none => simp [isFatalItem, he]
    | some e => exact ignorable_not_fatal (hall it hm (by simp [he]))
  have hnr : ∀ it ∈ res.items, isRetryableItem it = false := by
    intro it hm
    cases he : it.error with
    | none => simp [isRetryableItem, he]
    | some e => exact ignorable_not_retryable (hall it hm (by simp [he]))
  have h1 : _filterResponse data res = { data := [], error := false, reason := none } := by
    rw [_filterResponse, filterLoop_no_fatal data res.items 0 [] hnf,
      specRetryPairs_eq_nil data res.items 0 hnr]
    simp
  refine ⟨h1, ?_⟩
  simp [bulkSendOnSuccess, herr, _filterResponse] at h1 ⊢
  simp [h1]

/-- Concrete run of the ignorable-items theorem on the spec's scenario of a
409 conflict at the first position followed by a success. -/
theorem bulk_classifier_ignorable_witness :
    bulkSendOnSuccess [1, 2, 3, 4]
        ⟨true, [⟨409, some ⟨"version_conflict_engine_exception", "exists"⟩⟩, ⟨201, none⟩]⟩ =
      BulkOutcome.resolve
        ⟨true, [⟨409, some ⟨"version_conflict_engine_exception", "exists"⟩⟩, ⟨201, none⟩]⟩ :=
  (bulk_classifier_ignorable [1, 2, 3, 4]
    ⟨true, [⟨409, some ⟨"version_conflict_engine_exception", "exists"⟩⟩, ⟨201, none⟩]⟩
    (by decide) rfl).2

/-- Claim C5: on a search or count response with failed shards, a distinct
reason-type set of exactly the backpressure rejection makes both wrappers
reschedule the identical query, and any other distinct set makes both reject
with the distinct types joined by the pipe separator. -/
theorem shard_failure_reconciliation {α : Type} (d : SearchData α) (b : Bool)
    (hf : 0 < d.shards.failed) :
    (uniqFirst d.shards.failures = ["es_rejected_execution_exception"] →
      countOnData d = SearchStep.retrySame ∧ searchOnData b d = SearchStep.retrySame) ∧
    (uniqFirst d.shards.failures ≠ ["es_rejected_execution_exception"] →
      countOnData d = SearchStep.reject (String.intercalate " | " (uniqFirst d.shards.failures)) ∧
      searchOnData b d =
        SearchStep.reject (String.intercalate " | " (uniqFirst d.shards.failures))) := by
  constructor
  · intro hu
    have hcond := (reject_cond_iff (uniqFirst d.shards.failures)).mpr hu
    constructor
    · simp only [countOnData, if_pos hf, if_neg hcond]
    · simp only [searchOnData, if_pos hf, if_neg hcond]
  · intro hu
    have hcond : 1 < (uniqFirst d.shards.failures).length ∨
        (uniqFirst d.shards.failures).head? ≠ some "es_rejected_execution_exception" := by
      by_contra hc
      exact hu ((reject_cond_iff (uniqFirst d.shards.failures)).mp hc)
    constructor
    · simp only [countOnData, if_pos hf, if_pos hcond]
    · simp only [searchOnData, if_pos hf, if_pos hcond]

/-- Concrete run of the shard-failure theorem on the spec's scenario of two
failed shards, both typed as backpressure rejections. -/
theorem shard_failure_reconciliation_witness :
    countOnData (⟨⟨2, ["es_rejected_execution_exception", "es_rejected_execution_exception"]⟩,
        5, ([] : List Nat)⟩ : SearchData Nat) = SearchStep.retrySame :=
  ((shard_failure_reconciliation
    (⟨⟨2, ["es_rejected_execution_exception", "es_rejected_execution_exception"]⟩,
        5, ([] : List Nat)⟩ : SearchData Nat) true (by decide)).1 (by decide)).1

theorem timerAfter_closed (k : Nat) :
    timerAfter k = ⟨5000 + 5000 * min k 5, 10000 + 10000 * min k 5⟩ := by
  induction k with
  | zero => simp [timerAfter, initialRetryTimer]
  | succ n ih =>
    rw [timerAfter, ih, retryWiden]
    simp only [RetryTimer.mk.injEq]
    constructor
    · split_ifs with h <;> omega
    · split_ifs with h <;> omega

theorem retryDelay_bounds (t : RetryTimer) (ht : t.start < t.limit) (r : ℚ)
    (h0 : 0 ≤ r) (h1 : r < 1) :
    ((t.start : ℤ) ≤ retryDelay t r ∧ retryDelay t r < (t.limit : ℤ)) := by
  have hSL : (t.start : ℚ) < (t.limit : ℚ) := by exact_mod_cast ht
  constructor
  · rw [retryDelay]
    apply Int.le_floor.mpr
    push_cast
    nlinarith [mul_nonneg h0 (sub_nonneg.mpr (le_of_lt hSL))]
  · rw [retryDelay]
    apply Int.floor_lt.mpr
    push_cast
    nlinarith [mul_pos (by linarith : (0 : ℚ) < 1 - r)
      (by linarith : (0 : ℚ) < (t.limit : ℚ) - (t.start : ℚ))]

/-- Claim C4: starting from the fresh range of floor 5000 and ceiling 10000,
after any number k of uses of the scheduler the floor stays strictly below
the ceiling, both components are nondecreasing from one use to the next, the
ceiling never exceeds 60000 and the floor never exceeds 30000, and the delay
drawn at use k (before the widening) lies in the half-open range given by the
floor and ceiling as they stand at that use. -/
theorem backoff_range_invariants (k : Nat) (r : ℚ) (h0 : 0 ≤ r) (h1 : r < 1) :
    (timerAfter k).start < (timerAfter k).limit ∧
    (timerAfter k).start ≤ (timerAfter (k + 1)).start ∧
    (timerAfter k).limit ≤ (timerAfter (k + 1)).limit ∧
    (timerAfter k).start ≤ 30000 ∧
    (timerAfter k).limit ≤ 60000 ∧
    ((timerAfter k).start : ℤ) ≤ retryDelay (timerAfter k) r ∧
    retryDelay (timerAfter k) r < ((timerAfter k).limit : ℤ) := by
  have hk := timerAfter_closed k
  have hk1 := timerAfter_closed (k + 1)
  have hlt : (timerAfter k).start < (timerAfter k).limit := by
    rw [hk]; simp; omega
  obtain ⟨hlo, hhi⟩ := retryDelay_bounds (timerAfter k) hlt r h0 h1
  refine ⟨hlt, ?_, ?_, ?_, ?_, hlo, hhi⟩ <;> simp only [hk, hk1] <;> omega

/-- Concrete run of the backoff-invariant theorem after three uses with the
jitter draw one half. -/
theorem backoff_range_invariants_witness :
    (timerAfter 3).start < (timerAfter 3).limit ∧
    ((timerAfter 3).start : ℤ) ≤ retryDelay (timerAfter 3) (1 / 2) ∧
    retryDelay (timerAfter 3) (1 / 2) < ((timerAfter 3).limit : ℤ) :=
  ⟨(backoff_range_invariants 3 (1 / 2) (by norm_num) (by norm_num)).1,
   (backoff_range_invariants 3 (1 / 2) (by norm_num) (by norm_num)).2.2.2.2.2.1,
   (backoff_range_invariants 3 (1 / 2) (by norm_num) (by norm_num)).2.2.2.2.2.2⟩

/-- Claim C7: a point-operation attempt either resolves with the operation's
success value, reschedules the identical request when the client error's body
carries the backpressure type (leaving the promise pending), or rejects with
the normalized reason for any other error; the backoff range the handler owns
is created fresh at the initial values. -/
theorem point_op_error_policy {α β : Type} (onSuccess : α → β) (err : JsObj) :
    (err.bodyErrorType = some "es_rejected_execution_exception" →
      pointOpStep onSuccess (Except.error err) = PointOutcome.reschedule) ∧
    (err.bodyErrorType ≠ some "es_rejected_execution_exception" →
      pointOpStep onSuccess (Except.error err) = PointOutcome.reject (parseErrorObj err)) ∧
    (∀ v : α, pointOpStep onSuccess (Except.ok v) = PointOutcome.resolve (onSuccess v)) ∧
    errorHandlerInitialTimer = initialRetryTimer := by
  refine ⟨fun h => ?_, fun h => ?_, fun v => rfl, rfl⟩
  · simp [pointOpStep, errorHandler, h]
  · simp [pointOpStep, errorHandler, h]

/-- Concrete run of the point-operation policy on a backpressure-typed client
error. -/
theorem point_op_error_policy_witness :
    pointOpStep (fun n : Nat => n)
        (Except.error ⟨none, none, none, some "es_rejected_execution_exception", []⟩) =
      PointOutcome.reschedule :=
  (point_op_error_policy (fun n : Nat => n)
    ⟨none, none, none, some "es_rejected_execution_exception", []⟩).1 rfl

/-- Claim C8 as amended: for every non-null, non-undefined input the error
normalizer is total and deterministic (it returns a value and never throws)
and follows the stated priority order, here phrased by specNormalize, a
definition written from the spec's words.  The claim's inclusion of null and
undefined inputs does not hold, see the counterexample. -/
theorem parseError_priority_order (err : JsObj) :
    parseError (JsVal.obj err) = Except.ok (specNormalize err) := by
  simp only [parseError, Except.ok.injEq]
  cases hj : err.toJSON with
  | some j =>
    cases hm : j.msg with
    | none => simp [parseErrorObj, specNormalize, hj, hm, truthyStr]
    | some m =>
      by_cases hme : m = "" <;>
        simp [parseErrorObj, specNormalize, hj, hm, truthyStr, hme]
  | none =>
    cases hs : err.stack with
    | none =>
      cases hr : err.response with
      | none => simp [parseErrorObj, specNormalize, hj, hs, hr, truthyStr]
      | some resp =>
        by_cases hre : resp = "" <;>
          simp [parseErrorObj, specNormalize, hj, hs, hr, truthyStr, hre]
    | some st =>
      by_cases hse : st = ""
      · cases hr : err.response with
        | none => simp [parseErrorObj, specNormalize, hj, hs, hr, truthyStr, hse]
        | some resp =>
          by_cases hre : resp = "" <;>
            simp [parseErrorObj, specNormalize, hj, hs, hr, truthyStr, hse, hre]
      · simp [parseErrorObj, specNormalize, hj, hs, truthyStr, hse]

/-- Counterexample to claim C8 as stated: on a null or undefined input the
very first property access inside parseError throws a TypeError, so the
normalizer is not total over those inputs. -/
theorem parseError_throws_on_nullish : parseError JsVal.nullish = Except.error () := rfl

/-- Claim C9: a bulk response without the errors flag resolves immediately
with the raw result and never reaches the classifier, and a transport-level
error on the bulk call rejects immediately with the prefixed normalized
reason and never schedules a retry. -/
theorem bulk_send_no_item_errors_and_transport {α : Type} (data : List α) (res : BulkResults)
    (h : res.errors = false) (err : JsObj) :
    bulkSendOnSuccess data res = BulkOutcome.resolve res ∧
    bulkSendOnError α err =
      BulkOutcome.reject ("bulk sender error: " ++ jsTemplateStr (parseErrorObj err)) ∧
    ∀ nb : List (Option α), bulkSendOnError α err ≠ BulkOutcome.retryNarrowed nb := by
  refine ⟨?_, rfl, fun nb => ?_⟩
  · simp [bulkSendOnSuccess, h]
  · simp [bulkSendOnError]

/-- Concrete run of the bulk no-error and transport-error theorem. -/
theorem bulk_send_no_item_errors_and_transport_witness :
    bulkSendOnSuccess ([1] : List Nat) ⟨false, [⟨201, none⟩]⟩ =
      BulkOutcome.resolve ⟨false, [⟨201, none⟩]⟩ :=
  (bulk_send_no_item_errors_and_transport ([1] : List Nat) ⟨false, [⟨201, none⟩]⟩ rfl
    ⟨none, none, none, none, []⟩).1

/-- Claim C10: count writes size zero into the caller's query descriptor
before any client call, a mutation the caller can observe afterwards and that
persists across every retry of the chain, while search issues the caller's
query object unmodified on every attempt. -/
theorem count_query_size_mutation {α : Type} (q : QueryDesc α) (n : Nat) :
    (countQueryMutation q).size = some 0 ∧
    (countQueryMutation q).rest = q.rest ∧
    countIssuedQuery q n = countQueryMutation q ∧
    searchIssuedQuery q n = q ∧
    (q.size ≠ some 0 → countQueryMutation q ≠ q) := by
  refine ⟨rfl, rfl, rfl, rfl, fun hs hq => ?_⟩
  apply hs
  have h2 := congrArg QueryDesc.size hq
  simpa [countQueryMutation] using h2.symm

/-- Concrete run of the count-mutation theorem on a query whose size field
starts at seven. -/
theorem count_query_size_mutation_witness :
    (some 7 : Option Nat) ≠ some 0 ∧
    countQueryMutation (⟨some 7, 3⟩ : QueryDesc Nat) ≠ ⟨some 7, 3⟩ :=
  ⟨by decide, (count_query_size_mutation (⟨some 7, 3⟩ : QueryDesc Nat) 1).2.2.2.2 (by decide)⟩
